import Mathlib

/-!
Request handlers of pg_tileserv.

A shallow embedding of the request handlers of `src/pg_tileserv.go`
(`HandleRequestIndex`, `HandleRequestLayer`, `HandleRequestTile`) as state
passing functions, followed by the properties proved about them.

The handlers are stateful Go code.  Their state is made explicit:

* `globalLayers` (the package level `map[string]Layer`),
* the `http.ResponseWriter` handed to the handler,
* a trace recording, in program order, every call the handler makes to a
  collaborator (logging, catalog refresh, detail query, tile query, header and
  body writes).

`log.Fatal` prints and then calls `os.Exit(1)`: a handler therefore either
returns to the serving loop or ends the process, which is what `Outcome`
records.

The methods `IsValid`, `GetTile`, `AddDetails`, the function
`GetLayerTableList` and the types `Layer` and `Tile` are declared in other
files of the package.  The handlers are embedded over an arbitrary `Layer`
type and an arbitrary behaviour of these collaborators (`Env`).  `AddDetails`
runs on a shallow copy of the map element, which shares every map, slice and
pointer field with it, so its effect is taken on the receiver and on
`globalLayers` alike.
-/

namespace PgTileserv

/-! ## Values -/

/-- Bytes of a response body (Go `[]byte`), one natural number per byte. -/
abbrev Bytes := List Nat

/-- A Go `error` value that is not nil, by its message. -/
abbrev Err := String

/-- The composite literal `Tile{Zoom: zoom, X: x, Y: y, Ext: ext}` of
`HandleRequestTile`: three Go `int`s and a string. -/
structure Tile where
  Zoom : Int
  X : Int
  Y : Int
  Ext : String
deriving DecidableEq

/-- The route variables `mux.Vars(r)` read by the handlers.  A variable the
route does not bind reads as the empty string, as a missing map key does. -/
structure Vars where
  name : String
  zoom : String
  x : String
  y : String
  ext : String
deriving DecidableEq

/-! ## strconv.Atoi -/

/-- Largest Go `int` on a 64 bit platform. -/
def maxInt : Int := 2 ^ 63 - 1

/-- Smallest Go `int` on a 64 bit platform. -/
def minInt : Int := -(2 ^ 63)

/-- Largest `uint64`. -/
def maxUint64 : Nat := 2 ^ 64 - 1

/-- The digit loop of `strconv.ParseUint(s, 10, 64)`, with `n` the value read
so far: `none` at a byte that is not a decimal digit (syntax error), and
`maxUint64` as soon as the next digit would overflow (range error, returned
without reading on). -/
def parseUintLoop : List Char → Nat → Option Nat
  | [], n => some n
  | c :: cs, n =>
    if c.isDigit then
      if n ≥ maxUint64 / 10 + 1 then some maxUint64
      else if n * 10 + (c.toNat - 48) > maxUint64 then some maxUint64
      else parseUintLoop cs (n * 10 + (c.toNat - 48))
    else none

/-- The value `strconv.Atoi` returns (its error is discarded by the handler,
`x, _ := strconv.Atoi(...)`): an optional sign, then the digit loop; `0` on a
syntax error, the nearest bound of `int` on a range error. -/
def Atoi (s : String) : Int :=
  let cs := s.toList
  let neg : Bool := cs.head? == some '-'
  let ds := if cs.head? == some '-' || cs.head? == some '+' then cs.tail else cs
  if ds.isEmpty then 0
  else
    match parseUintLoop ds 0 with
    | none => 0
    | some un =>
      if !neg && un ≥ 2 ^ 63 then maxInt
      else if neg && un > 2 ^ 63 then minInt
      else if neg then -(un : Int) else (un : Int)

/-! ## The response writer -/

/-- State of the `http.ResponseWriter` of one request: the header map (as the
list of added pairs), the status line once it has been written, and the body
bytes written so far. -/
structure ResponseWriter where
  header : List (String × String)
  status : Option Nat
  body : Bytes
deriving DecidableEq

/-- The writer a handler receives: nothing added, nothing written. -/
def ResponseWriter.fresh : ResponseWriter := ⟨[], none, []⟩

/-- Effect of `w.Header().Add(k, v)`. -/
def ResponseWriter.HeaderAdd (w : ResponseWriter) (k v : String) : ResponseWriter :=
  { w with header := w.header ++ [(k, v)] }

/-- Effect of `w.Write(b)`: when no status line has been written yet the call
first writes status 200 (`http.StatusOK`), then the bytes. -/
def ResponseWriter.Write (w : ResponseWriter) (b : Bytes) : ResponseWriter :=
  { w with status := some (w.status.getD 200), body := w.body ++ b }

/-- Status the client receives once the handler has returned: the written
status line, or 200 when the handler never wrote one. -/
def ResponseWriter.finalStatus (w : ResponseWriter) : Nat :=
  w.status.getD 200

/-- Value of the response header `k` (first value added), if any. -/
def ResponseWriter.headerGet (w : ResponseWriter) (k : String) : Option String :=
  w.header.lookup k

/-! ## Trace, state, outcome -/

/-- One observable step of a handler, in program order. -/
inductive Event where
  /-- Output of `log.Println` / `log.Printf`. -/
  | logPrint (msg : String)
  /-- Output of `log.Fatal`, which is followed by `os.Exit(1)`. -/
  | logFatal (msg : String)
  /-- A call of `DbConnect`. -/
  | dbConnect
  /-- A call of `GetLayerTableList()`. -/
  | getLayerTableList
  /-- A call of `lyr.AddDetails()` for the layer looked up under the name. -/
  | addDetails (lyrname : String)
  /-- A call of `lyr.GetTile(&tile)` for the layer looked up under the name. -/
  | getTile (lyrname : String) (tile : Tile)
  /-- A call of `w.Header().Add(k, v)`. -/
  | headerAdd (k v : String)
  /-- A call of `w.Write(b)` (directly or through the JSON encoder). -/
  | write (b : Bytes)
deriving DecidableEq

/-- Whether the event is a `GetTile` call. -/
def Event.isGetTile : Event → Bool
  | .getTile _ _ => true
  | _ => false

/-- Whether the event is an `AddDetails` call. -/
def Event.isAddDetails : Event → Bool
  | .addDetails _ => true
  | _ => false

/-- Whether the event is a `GetLayerTableList` call. -/
def Event.isGetLayerTableList : Event → Bool
  | .getLayerTableList => true
  | _ => false

/-- Whether the event writes to the response body. -/
def Event.isWrite : Event → Bool
  | .write _ => true
  | _ => false

/-- Whether the event reaches the database: the connection, the catalog
refresh, the detail query or the tile query. -/
def Event.touchesDb : Event → Bool
  | .dbConnect => true
  | .getLayerTableList => true
  | .addDetails _ => true
  | .getTile _ _ => true
  | _ => false

/-- The program state a handler runs in. -/
structure State (Layer : Type) where
  /-- The package variable `globalLayers`, a map from layer name to `Layer`
  value, as an association list read with `List.lookup`. -/
  globalLayers : List (String × Layer)
  /-- The response writer of the request. -/
  w : ResponseWriter
  /-- Events so far, oldest first. -/
  trace : List Event

/-- How a handler ends. -/
inductive Outcome (σ : Type) where
  /-- The handler returned to the serving loop. -/
  | returned (s : σ)
  /-- The process ended through `os.Exit(code)`. -/
  | exited (code : Nat) (s : σ)

/-- State at the end of the handler. -/
def Outcome.state {σ : Type} : Outcome σ → σ
  | .returned s => s
  | .exited _ s => s

/-- Whether the handler returned to the serving loop. -/
def Outcome.isReturned {σ : Type} : Outcome σ → Bool
  | .returned _ => true
  | .exited _ _ => false

/-- Events a handler that started in `s` and ended as `o` added to the trace. -/
def Outcome.newEvents {Layer : Type} (o : Outcome (State Layer)) (s : State Layer) :
    List Event :=
  o.state.trace.drop s.trace.length

/-- Behaviour of the collaborators declared outside `pg_tileserv.go`. -/
structure Env (Layer : Type) where
  /-- Result of `tile.IsValid()`. -/
  IsValid : Tile → Bool
  /-- Result `(pbf, err)` of `lyr.GetTile(&tile)`. -/
  GetTile : Layer → Tile → Bytes × Option Err
  /-- Effect of `lyr.AddDetails()`, given the receiver `lyr` and `globalLayers`
  at the call: the receiver afterwards, `globalLayers` afterwards, and the
  error.  The method is package code and its receiver a shallow copy of the map
  element, so what it stores may be stored in the catalog too. -/
  AddDetails : Layer → List (String × Layer) → Layer × List (String × Layer) × Option Err
  /-- Effect of `GetLayerTableList()` on `globalLayers`. -/
  GetLayerTableList : List (String × Layer) → List (String × Layer)
  /-- Bytes `json.NewEncoder(w).Encode(lyr)` writes for a `Layer`. -/
  encodeLayer : Layer → Bytes
  /-- Bytes `json.NewEncoder(w).Encode(globalLayers)` writes for the map. -/
  encodeLayers : List (String × Layer) → Bytes

section Handlers

variable {Layer : Type}

/-- Append an event to the trace. -/
def State.emit (s : State Layer) (e : Event) : State Layer :=
  { s with trace := s.trace ++ [e] }

/-- Replace the catalog `globalLayers`. -/
def State.setLayers (s : State Layer) (layers : List (String × Layer)) : State Layer :=
  { s with globalLayers := layers }

/-- The statement `w.Header().Add(k, v)`. -/
def State.headerAdd (s : State Layer) (k v : String) : State Layer :=
  { (s.emit (.headerAdd k v)) with w := s.w.HeaderAdd k v }

/-- The statement `w.Write(b)`. -/
def State.write (s : State Layer) (b : Bytes) : State Layer :=
  { (s.emit (.write b)) with w := s.w.Write b }

/-- The tile `HandleRequestTile` builds from the route variables. -/
def tileOf (vars : Vars) : Tile :=
  { Zoom := Atoi vars.zoom, X := Atoi vars.x, Y := Atoi vars.y, Ext := vars.ext }

/-- The message of `log.Printf("HandleRequestTile: %d/%d/%d.%s", zoom, x, y, ext)`. -/
def tileLogLine (t : Tile) : String :=
  "HandleRequestTile: " ++ toString t.Zoom ++ "/" ++ toString t.X ++ "/" ++
    toString t.Y ++ "." ++ t.Ext

/-- The handler `HandleRequestIndex` (lines 98 to 104). -/
def HandleRequestIndex (env : Env Layer) (s : State Layer) : Outcome (State Layer) :=
  let s1 := s.emit (.logPrint "HandleRequestIndex")
  -- Update the local copy
  let s2 := { (s1.emit .getLayerTableList) with
                globalLayers := env.GetLayerTableList s1.globalLayers }
  let s3 := s2.headerAdd "Content-Type" "application/json"
  let s4 := s3.write (env.encodeLayers s3.globalLayers)
  .returned s4

/-- The handler `HandleRequestLayer` (lines 106 to 119).  `lyr` is a shallow
copy of the map element; `r` is what the call `lyr.AddDetails()` leaves: the
receiver `r.1`, the catalog `r.2.1` and the error `r.2.2`.  The handler itself
never assigns to `globalLayers`. -/
def HandleRequestLayer (env : Env Layer) (vars : Vars) (s : State Layer) :
    Outcome (State Layer) :=
  let lyrname := vars.name
  let s1 := s.emit (.logPrint ("HandleRequestLayer: " ++ lyrname))
  match s1.globalLayers.lookup lyrname with
  | some lyr =>
    let r := env.AddDetails lyr s1.globalLayers
    let s2 := (s1.emit (.addDetails lyrname)).setLayers r.2.1
    match r.2.2 with
    | some e => .exited 1 (s2.emit (.logFatal e))
    | none =>
      let s3 := s2.headerAdd "Content-Type" "application/json"
      let s4 := s3.write (env.encodeLayer r.1)
      .returned s4
  | none => .returned s1

/-- The handler `HandleRequestTile` (lines 135 to 159). -/
def HandleRequestTile (env : Env Layer) (vars : Vars) (s : State Layer) :
    Outcome (State Layer) :=
  let lyrname := vars.name
  match s.globalLayers.lookup lyrname with
  | some lyr =>
    let tile := tileOf vars
    let s1 := s.emit (.logPrint (tileLogLine tile))
    if !env.IsValid tile then
      .exited 1 (s1.emit (.logFatal "HandleRequestTile: invalid map tile"))
    else
      let s2 := s1.emit (.getTile lyrname tile)
      let (pbf, _err) := env.GetTile lyr tile
      -- TODO return a 500 or something
      let s3 := s2.headerAdd "Content-Type" "application/vnd.mapbox-vector-tile"
      let s4 := s3.write pbf
      .returned s4
  | none => .returned s

end Handlers

/-! ## The tile coordinate check -/

/-- Output extensions the tile endpoint recognizes: the binary tile format. -/
def recognizedExts : List String := ["pbf"]

/-- Modelled from the spec: the method `IsValid` of `Tile` is declared outside
`pg_tileserv.go`.  Section 4.1: validation "fails (returns invalid) unless
zoom >= 0, 0 <= x < 2^zoom, 0 <= y < 2^zoom, and format is a recognized output
extension".  Written as a sequence of rejecting checks over the size of the
tile grid at the zoom level. -/
def Tile.IsValid (t : Tile) : Bool :=
  if t.Zoom < 0 then false
  else
    let worldTileSize : Int := 2 ^ t.Zoom.toNat
    if t.X < 0 || t.X ≥ worldTileSize then false
    else if t.Y < 0 || t.Y ≥ worldTileSize then false
    else recognizedExts.contains t.Ext

/-! ## A concrete catalog -/

/-- Modelled from the spec: the struct `Layer` is declared outside
`pg_tileserv.go`.  Section 3, Layer Descriptor: listing fields filled at
catalog refresh and an attribute list filled lazily by the detail query
(`none` until then).  The attribute list stands for the whole detail tier; the
native extent, a box of floating point numbers populated together with it, is
left out. -/
structure LayerDescriptor where
  name : String
  schema : String
  geometryColumn : String
  sourceSRID : Int
  attributeColumns : Option (List (String × String))
deriving DecidableEq

/-- The bytes of an ASCII string. -/
def asciiBytes (s : String) : Bytes := s.toList.map Char.toNat

/-- A JSON rendering of one descriptor. -/
def exLayerJson (l : LayerDescriptor) : String :=
  "\x7b\"name\":\"" ++ l.name ++ "\",\"schema\":\"" ++ l.schema ++
    "\",\"attributes\":" ++
    (match l.attributeColumns with
     | none => "null"
     | some cols => "[" ++ ",".intercalate (cols.map fun c => "\"" ++ c.1 ++ "\"") ++ "]") ++
    "\x7d"

/-- What `Encode` writes for one descriptor: its JSON and a newline. -/
def exEncodeLayer (l : LayerDescriptor) : Bytes :=
  asciiBytes (exLayerJson l ++ "\n")

/-- What `Encode` writes for the catalog map: a JSON object keyed by layer
name, and a newline. -/
def exEncodeLayers (m : List (String × LayerDescriptor)) : Bytes :=
  asciiBytes ("\x7b" ++
    ",".intercalate (m.map fun kv => "\"" ++ kv.1 ++ "\":" ++ exLayerJson kv.2) ++ "\x7d\n")

/-- A listing level descriptor: details not populated. -/
def exRoads : LayerDescriptor :=
  { name := "roads", schema := "public", geometryColumn := "geom", sourceSRID := 4326,
    attributeColumns := none }

/-- A second listing level descriptor, found by a later catalog refresh. -/
def exParks : LayerDescriptor :=
  { name := "parks", schema := "public", geometryColumn := "geom", sourceSRID := 4326,
    attributeColumns := none }

/-- A catalog with the single layer `roads`. -/
def exLayers : List (String × LayerDescriptor) := [("roads", exRoads)]

/-- Collaborators that all succeed: the tile query finds no feature, the
detail query fills the attribute list, the refresh finds a second layer. -/
def exEnv : Env LayerDescriptor :=
  { IsValid := Tile.IsValid
    GetTile := fun _ _ => ([], none)
    AddDetails := fun l layers =>
      ({ l with attributeColumns := some [("gid", "int4")] }, layers, none)
    GetLayerTableList := fun _ => [("roads", exRoads), ("parks", exParks)]
    encodeLayer := exEncodeLayer
    encodeLayers := exEncodeLayers }

/-- As `exEnv`, with a tile query that fails. -/
def exEnvQueryFails : Env LayerDescriptor :=
  { exEnv with GetTile := fun _ _ => ([], some "pq: canceling statement due to statement timeout") }

/-- As `exEnv`, with a detail query that fails. -/
def exEnvDetailsFail : Env LayerDescriptor :=
  { exEnv with AddDetails := fun l layers => (l, layers, some "pq: relation does not exist") }

/-- Modelled from the spec: the method `AddDetails` of `Layer` is declared
outside `pg_tileserv.go`.  Section 4.2, `ensureDetails`: "lazily runs a deeper
catalog query to populate native extent and attribute list for one descriptor;
cached on the descriptor for the life of the catalog generation"; section 3:
"attribute details populated on first detail request per layer".  `query` is
the deeper catalog query.  A descriptor whose details are populated is
returned as it is, without a query.  Otherwise the query runs; when it fails
nothing is changed and its error is returned; when it succeeds its result is
stored on the descriptor, that is on the receiver and on the catalog's
descriptor the receiver is a copy of. -/
def LayerDescriptor.AddDetails (query : LayerDescriptor → Except Err (List (String × String)))
    (l : LayerDescriptor) (layers : List (String × LayerDescriptor)) :
    LayerDescriptor × List (String × LayerDescriptor) × Option Err :=
  match l.attributeColumns with
  | some _ => (l, layers, none)
  | none =>
    match query l with
    | .error e => (l, layers, some e)
    | .ok cols =>
      ({ l with attributeColumns := some cols },
        layers.map (fun kv =>
          (kv.1, if kv.2 = l then { l with attributeColumns := some cols } else kv.2)),
        none)

/-- The collaborators `base` with the detail method of the spec over the
detail query `query`. -/
def cachingEnv (base : Env LayerDescriptor)
    (query : LayerDescriptor → Except Err (List (String × String))) : Env LayerDescriptor :=
  { base with AddDetails := LayerDescriptor.AddDetails query }

/-- A detail query that finds one attribute column. -/
def exDetailQuery (_l : LayerDescriptor) : Except Err (List (String × String)) :=
  .ok [("gid", "int4")]

/-- A detail query that fails. -/
def exDetailQueryFails (_l : LayerDescriptor) : Except Err (List (String × String)) :=
  .error "pq: relation does not exist"

/-- State at the start of a request: the catalog `exLayers`, a fresh writer,
an empty trace. -/
def exState : State LayerDescriptor :=
  { globalLayers := exLayers, w := ResponseWriter.fresh, trace := [] }

/-- Route variables of `GET /roads/0/0/0.pbf`. -/
def exVarsValid : Vars := { name := "roads", zoom := "0", x := "0", y := "0", ext := "pbf" }

/-- Route variables of `GET /roads/0/1/0.pbf`. -/
def exVarsInvalid : Vars := { name := "roads", zoom := "0", x := "1", y := "0", ext := "pbf" }

/-- Route variables of `GET /rivers/0/0/0.pbf`: no such layer. -/
def exVarsMissing : Vars := { name := "rivers", zoom := "0", x := "0", y := "0", ext := "pbf" }

/-- Route variables of `GET /roads.json`. -/
def exVarsRoads : Vars := { name := "roads", zoom := "", x := "", y := "", ext := "" }

/-- Route variables of `GET /rivers.json`: no such layer. -/
def exVarsRivers : Vars := { name := "rivers", zoom := "", x := "", y := "", ext := "" }

/-! ## Evaluation lemmas -/

section Lemmas

variable {Layer : Type}

/-- The events added, read off a trace given as the old trace and a suffix. -/
theorem newEvents_append (o : Outcome (State Layer)) (s : State Layer) (es : List Event)
    (h : o.state.trace = s.trace ++ es) : o.newEvents s = es := by
  simp [Outcome.newEvents, h]

/-- Evaluation of `HandleRequestTile` for a name that is not in the catalog. -/
theorem HandleRequestTile_absent (env : Env Layer) (vars : Vars) (s : State Layer)
    (hmiss : s.globalLayers.lookup vars.name = none) :
    HandleRequestTile env vars s = .returned s := by
  simp [HandleRequestTile, hmiss]

/-- Evaluation of `HandleRequestTile` for a layer of the catalog and a tile that
is not valid. -/
theorem HandleRequestTile_invalid (env : Env Layer) (vars : Vars) (s : State Layer)
    (lyr : Layer) (hlyr : s.globalLayers.lookup vars.name = some lyr)
    (hbad : env.IsValid (tileOf vars) = false) :
    HandleRequestTile env vars s =
      .exited 1 ((s.emit (.logPrint (tileLogLine (tileOf vars)))).emit
        (.logFatal "HandleRequestTile: invalid map tile")) := by
  simp [HandleRequestTile, hlyr, hbad]

/-- Evaluation of `HandleRequestTile` for a layer of the catalog and a valid tile. -/
theorem HandleRequestTile_valid (env : Env Layer) (vars : Vars) (s : State Layer)
    (lyr : Layer) (hlyr : s.globalLayers.lookup vars.name = some lyr)
    (hok : env.IsValid (tileOf vars) = true) :
    HandleRequestTile env vars s =
      .returned ((((s.emit (.logPrint (tileLogLine (tileOf vars)))).emit
        (.getTile vars.name (tileOf vars))).headerAdd
          "Content-Type" "application/vnd.mapbox-vector-tile").write
            (env.GetTile lyr (tileOf vars)).1) := by
  simp [HandleRequestTile, hlyr, hok]

/-- Evaluation of `HandleRequestLayer` for a name that is not in the catalog. -/
theorem HandleRequestLayer_absent (env : Env Layer) (vars : Vars) (s : State Layer)
    (hmiss : s.globalLayers.lookup vars.name = none) :
    HandleRequestLayer env vars s =
      .returned (s.emit (.logPrint ("HandleRequestLayer: " ++ vars.name))) := by
  simp [HandleRequestLayer, State.emit, hmiss]

/-- Evaluation of `HandleRequestLayer` when the detail query fails. -/
theorem HandleRequestLayer_failed (env : Env Layer) (vars : Vars) (s : State Layer)
    (lyr : Layer) (e : Err) (hlyr : s.globalLayers.lookup vars.name = some lyr)
    (herr : (env.AddDetails lyr s.globalLayers).2.2 = some e) :
    HandleRequestLayer env vars s =
      .exited 1 ((((s.emit (.logPrint ("HandleRequestLayer: " ++ vars.name))).emit
        (.addDetails vars.name)).setLayers (env.AddDetails lyr s.globalLayers).2.1).emit
          (.logFatal e)) := by
  simp [HandleRequestLayer, State.emit, State.setLayers, hlyr, herr]

/-- Evaluation of `HandleRequestLayer` when the detail query succeeds. -/
theorem HandleRequestLayer_detailed (env : Env Layer) (vars : Vars) (s : State Layer)
    (lyr : Layer) (hlyr : s.globalLayers.lookup vars.name = some lyr)
    (hok : (env.AddDetails lyr s.globalLayers).2.2 = none) :
    HandleRequestLayer env vars s =
      .returned (((((s.emit (.logPrint ("HandleRequestLayer: " ++ vars.name))).emit
        (.addDetails vars.name)).setLayers (env.AddDetails lyr s.globalLayers).2.1).headerAdd
          "Content-Type" "application/json").write
            (env.encodeLayer (env.AddDetails lyr s.globalLayers).1)) := by
  simp [HandleRequestLayer, State.emit, State.setLayers, hlyr, hok]

/-- Reading a catalog whose descriptors were all passed through `f`. -/
theorem lookup_map_descriptors {α : Type} (f : α → α) (k : String) (l : List (String × α)) :
    (l.map (fun kv => (kv.1, f kv.2))).lookup k = (l.lookup k).map f := by
  induction l with
  | nil => rfl
  | cons kv rest ih =>
    simp only [List.map_cons, List.lookup]
    cases hk : (k == kv.1) with
    | true => simp
    | false => simpa using ih

/-- The detail method of the spec on a descriptor whose details are populated:
no query, nothing changed, no error. -/
theorem AddDetails_of_detailed (query : LayerDescriptor → Except Err (List (String × String)))
    (d : LayerDescriptor) (layers : List (String × LayerDescriptor))
    (hd : d.attributeColumns.isSome = true) :
    LayerDescriptor.AddDetails query d layers = (d, layers, none) := by
  unfold LayerDescriptor.AddDetails
  cases hc : d.attributeColumns with
  | none => simp [hc] at hd
  | some cols => rfl

/-- The detail method of the spec, when it reports no error for the descriptor
the catalog holds under `name`: the receiver comes back detailed and the
catalog holds that detailed descriptor under `name`. -/
theorem AddDetails_ok_cached (query : LayerDescriptor → Except Err (List (String × String)))
    (l : LayerDescriptor) (layers : List (String × LayerDescriptor)) (name : String)
    (hl : layers.lookup name = some l)
    (hok : (LayerDescriptor.AddDetails query l layers).2.2 = none) :
    (LayerDescriptor.AddDetails query l layers).1.attributeColumns.isSome = true ∧
      (LayerDescriptor.AddDetails query l layers).2.1.lookup name =
        some (LayerDescriptor.AddDetails query l layers).1 := by
  unfold LayerDescriptor.AddDetails at hok ⊢
  cases hc : l.attributeColumns with
  | some cols => simp [hc, hl]
  | none =>
    cases hq : query l with
    | error e => simp [hc, hq] at hok
    | ok cols =>
      simp only [hc, hq]
      refine ⟨rfl, ?_⟩
      rw [lookup_map_descriptors
        (fun d => if d = l then { l with attributeColumns := some cols } else d) name layers, hl]
      simp

end Lemmas

/-! ## HandleRequestTile -/

section TileHandler

variable {Layer : Type}

/-- C1. Validation gate of `HandleRequestTile`: when the layer name is a key of
`globalLayers` and the tile built from the request is not valid, no event the
handler adds is a `GetTile` call, none reaches the database, none writes to
the response, and the response writer is left as it was (no tile byte is
written). -/
theorem HandleRequestTile_invalid_tile_no_query (env : Env Layer) (vars : Vars)
    (s : State Layer) (lyr : Layer)
    (hlyr : s.globalLayers.lookup vars.name = some lyr)
    (hbad : env.IsValid (tileOf vars) = false) :
    (∀ e ∈ (HandleRequestTile env vars s).newEvents s,
        e.isGetTile = false ∧ e.touchesDb = false ∧ e.isWrite = false) ∧
      (HandleRequestTile env vars s).state.w = s.w := by
  rw [HandleRequestTile_invalid env vars s lyr hlyr hbad]
  refine ⟨?_, rfl⟩
  intro e he
  rw [newEvents_append _ s [.logPrint (tileLogLine (tileOf vars)),
    .logFatal "HandleRequestTile: invalid map tile"] (by simp [Outcome.state, State.emit])] at he
  simp only [List.mem_cons, List.mem_singleton, List.not_mem_nil, or_false] at he
  rcases he with rfl | rfl <;> simp [Event.isGetTile, Event.touchesDb, Event.isWrite]

/-- Witness of C1 at `GET /roads/0/1/0.pbf` over the catalog with `roads`. -/
theorem HandleRequestTile_invalid_tile_no_query_witness :
    exState.globalLayers.lookup exVarsInvalid.name = some exRoads ∧
      exEnv.IsValid (tileOf exVarsInvalid) = false ∧
      (∀ e ∈ (HandleRequestTile exEnv exVarsInvalid exState).newEvents exState,
        e.isGetTile = false ∧ e.touchesDb = false ∧ e.isWrite = false) ∧
      (HandleRequestTile exEnv exVarsInvalid exState).state.w = exState.w :=
  ⟨by decide, by decide,
    HandleRequestTile_invalid_tile_no_query exEnv exVarsInvalid exState exRoads
      (by decide) (by decide)⟩

/-- C3 (the code at the failing input). A tile query that fails for an existing
layer and a valid tile: `HandleRequestTile` returns, the status the client
receives is 200 and the response carries the vector tile content type. -/
theorem HandleRequestTile_query_error_answered_200 :
    exState.globalLayers.lookup exVarsValid.name = some exRoads ∧
      exEnvQueryFails.IsValid (tileOf exVarsValid) = true ∧
      (exEnvQueryFails.GetTile exRoads (tileOf exVarsValid)).2 =
        some "pq: canceling statement due to statement timeout" ∧
      (HandleRequestTile exEnvQueryFails exVarsValid exState).isReturned = true ∧
      (HandleRequestTile exEnvQueryFails exVarsValid exState).state.w.finalStatus = 200 ∧
      (HandleRequestTile exEnvQueryFails exVarsValid exState).state.w.headerGet "Content-Type" =
        some "application/vnd.mapbox-vector-tile" ∧
      (HandleRequestTile exEnvQueryFails exVarsValid exState).state.w.body = [] := by
  decide

/-- C4 (as stated, refuted). For `GET /rivers/0/0/0.pbf` over a catalog without
`rivers` the handler writes no status line and the client receives status 200,
not 404. -/
theorem HandleRequestTile_absent_layer_not_404 :
    exState.globalLayers.lookup exVarsMissing.name = none ∧
      (HandleRequestTile exEnv exVarsMissing exState).state.w.status = none ∧
      (HandleRequestTile exEnv exVarsMissing exState).state.w.finalStatus = 200 ∧
      (HandleRequestTile exEnv exVarsMissing exState).state.w.finalStatus ≠ 404 := by
  decide

/-- C4 (amended). When the layer name is not a key of `globalLayers`,
`HandleRequestTile` returns at once with the state it was given: it adds no
event (so no `GetTile`, `DbConnect` or `GetLayerTableList` call), and leaves the
response writer untouched, so no status line, header or body is written by the
handler. -/
theorem HandleRequestTile_absent_layer_untouched (env : Env Layer) (vars : Vars)
    (s : State Layer) (hmiss : s.globalLayers.lookup vars.name = none) :
    HandleRequestTile env vars s = .returned s ∧
      (HandleRequestTile env vars s).newEvents s = [] ∧
      (HandleRequestTile env vars s).state.w = s.w := by
  rw [HandleRequestTile_absent env vars s hmiss]
  exact ⟨rfl, by simp [Outcome.newEvents, Outcome.state], rfl⟩

/-- Witness of C4 (amended) at `GET /rivers/0/0/0.pbf`. -/
theorem HandleRequestTile_absent_layer_untouched_witness :
    exState.globalLayers.lookup exVarsMissing.name = none ∧
      HandleRequestTile exEnv exVarsMissing exState = .returned exState ∧
      (HandleRequestTile exEnv exVarsMissing exState).newEvents exState = [] ∧
      (HandleRequestTile exEnv exVarsMissing exState).state.w = exState.w :=
  ⟨by decide, HandleRequestTile_absent_layer_untouched exEnv exVarsMissing exState (by decide)⟩

/-- C5. Tile response assembly: for a layer of the catalog, a valid tile and a
tile query returning `(pbf, nil)`, a handler started on a fresh writer returns
with status 200, the header `Content-Type:
application/vnd.mapbox-vector-tile` as the only header, and a body that is
exactly `pbf`; for an empty `pbf` that is a success with a body of length zero. -/
theorem HandleRequestTile_success_response (env : Env Layer) (vars : Vars)
    (s : State Layer) (lyr : Layer) (pbf : Bytes)
    (hlyr : s.globalLayers.lookup vars.name = some lyr)
    (hok : env.IsValid (tileOf vars) = true)
    (hget : env.GetTile lyr (tileOf vars) = (pbf, none))
    (hfresh : s.w = ResponseWriter.fresh) :
    (HandleRequestTile env vars s).isReturned = true ∧
      (HandleRequestTile env vars s).state.w.header =
        [("Content-Type", "application/vnd.mapbox-vector-tile")] ∧
      (HandleRequestTile env vars s).state.w.headerGet "Content-Type" =
        some "application/vnd.mapbox-vector-tile" ∧
      (HandleRequestTile env vars s).state.w.body = pbf ∧
      (HandleRequestTile env vars s).state.w.finalStatus = 200 ∧
      (pbf = [] → (HandleRequestTile env vars s).state.w.body.length = 0) := by
  rw [HandleRequestTile_valid env vars s lyr hlyr hok, hget]
  simp [Outcome.isReturned, Outcome.state, State.write, State.headerAdd, State.emit,
    ResponseWriter.Write, ResponseWriter.HeaderAdd, ResponseWriter.headerGet,
    ResponseWriter.finalStatus, hfresh, ResponseWriter.fresh, List.lookup]

/-- Witness of C5 at `GET /roads/0/0/0.pbf` with a tile query that finds no
feature: a success with an empty body. -/
theorem HandleRequestTile_success_response_witness :
    (HandleRequestTile exEnv exVarsValid exState).isReturned = true ∧
      (HandleRequestTile exEnv exVarsValid exState).state.w.header =
        [("Content-Type", "application/vnd.mapbox-vector-tile")] ∧
      (HandleRequestTile exEnv exVarsValid exState).state.w.headerGet "Content-Type" =
        some "application/vnd.mapbox-vector-tile" ∧
      (HandleRequestTile exEnv exVarsValid exState).state.w.body = [] ∧
      (HandleRequestTile exEnv exVarsValid exState).state.w.finalStatus = 200 ∧
      (([] : Bytes) = [] →
        (HandleRequestTile exEnv exVarsValid exState).state.w.body.length = 0) :=
  HandleRequestTile_success_response exEnv exVarsValid exState exRoads []
    (by decide) (by decide) (by decide) (by decide)

/-- C8. Single query and frame of `HandleRequestTile`: for a layer of the
catalog and a valid tile exactly one of the events the handler adds is a
`GetTile` call; and for every request the handler leaves `globalLayers` as it
was and none of the events it adds is a `GetLayerTableList` call. -/
theorem HandleRequestTile_one_query_and_frame (env : Env Layer) (vars : Vars)
    (s : State Layer) :
    (∀ lyr, s.globalLayers.lookup vars.name = some lyr →
        env.IsValid (tileOf vars) = true →
        ((HandleRequestTile env vars s).newEvents s).countP Event.isGetTile = 1) ∧
      (HandleRequestTile env vars s).state.globalLayers = s.globalLayers ∧
      (∀ e ∈ (HandleRequestTile env vars s).newEvents s, e.isGetLayerTableList = false) := by
  cases hl : s.globalLayers.lookup vars.name with
  | none =>
    rw [HandleRequestTile_absent env vars s hl]
    simp [Outcome.newEvents, Outcome.state]
  | some lyr =>
    cases hv : env.IsValid (tileOf vars) with
    | false =>
      rw [HandleRequestTile_invalid env vars s lyr hl hv]
      rw [newEvents_append _ s [.logPrint (tileLogLine (tileOf vars)),
        .logFatal "HandleRequestTile: invalid map tile"] (by simp [Outcome.state, State.emit])]
      simp [Outcome.state, State.emit, Event.isGetLayerTableList]
    | true =>
      rw [HandleRequestTile_valid env vars s lyr hl hv]
      rw [newEvents_append _ s [.logPrint (tileLogLine (tileOf vars)),
        .getTile vars.name (tileOf vars),
        .headerAdd "Content-Type" "application/vnd.mapbox-vector-tile",
        .write (env.GetTile lyr (tileOf vars)).1]
        (by simp [Outcome.state, State.emit, State.setLayers, State.write, State.headerAdd])]
      simp [Outcome.state, State.emit, State.setLayers, State.write, State.headerAdd,
        Event.isGetLayerTableList, Event.isGetTile, List.countP_cons]

/-- Witness of C8 at `GET /roads/0/0/0.pbf`: one `GetTile` call, catalog kept. -/
theorem HandleRequestTile_one_query_and_frame_witness :
    ((HandleRequestTile exEnv exVarsValid exState).newEvents exState).countP
        Event.isGetTile = 1 ∧
      (HandleRequestTile exEnv exVarsValid exState).state.globalLayers = exLayers :=
  ⟨(HandleRequestTile_one_query_and_frame exEnv exVarsValid exState).1 exRoads
      (by decide) (by decide),
    (HandleRequestTile_one_query_and_frame exEnv exVarsValid exState).2.1⟩

end TileHandler

/-! ## Termination policy of the handlers -/

section Policy

variable {Layer : Type}

/-- C2 (as stated, refuted). Two request scoped failures end the process: the
invalid tile of `GET /roads/0/1/0.pbf` in `HandleRequestTile`, and a failing
detail query for `GET /roads.json` in `HandleRequestLayer`.  Neither handler
returns to the serving loop. -/
theorem handlers_failure_ends_process :
    exState.globalLayers.lookup exVarsInvalid.name = some exRoads ∧
      exEnv.IsValid (tileOf exVarsInvalid) = false ∧
      (HandleRequestTile exEnv exVarsInvalid exState).isReturned = false ∧
      (exEnvDetailsFail.AddDetails exRoads exLayers).2.2 =
        some "pq: relation does not exist" ∧
      (HandleRequestLayer exEnvDetailsFail exVarsRoads exState).isReturned = false := by
  decide

/-- C2 (amended). `HandleRequestTile` returns to the serving loop exactly when
the layer name is absent from `globalLayers` or the tile is valid, whatever
`GetTile` returns (an error included); `HandleRequestLayer` returns exactly
when the layer name is absent or `AddDetails` reports no error.  In the
remaining cases (an invalid tile, a failing `AddDetails`) the handler calls
`log.Fatal` and the process exits with code 1. -/
theorem handlers_return_or_exit (env : Env Layer) (vars : Vars) (s : State Layer) :
    ((HandleRequestTile env vars s).isReturned = true ↔
        ∀ lyr, s.globalLayers.lookup vars.name = some lyr →
          env.IsValid (tileOf vars) = true) ∧
      ((HandleRequestLayer env vars s).isReturned = true ↔
        ∀ lyr, s.globalLayers.lookup vars.name = some lyr →
          (env.AddDetails lyr s.globalLayers).2.2 = none) ∧
      (∀ code st, HandleRequestTile env vars s = .exited code st →
        code = 1 ∧ st.trace.getLast? = some (.logFatal "HandleRequestTile: invalid map tile")) ∧
      (∀ code st, HandleRequestLayer env vars s = .exited code st →
        code = 1 ∧ ∃ lyr e, s.globalLayers.lookup vars.name = some lyr ∧
          (env.AddDetails lyr s.globalLayers).2.2 = some e ∧
          st.trace.getLast? = some (.logFatal e)) := by
  cases hl : s.globalLayers.lookup vars.name with
  | none =>
    rw [HandleRequestTile_absent env vars s hl, HandleRequestLayer_absent env vars s hl]
    simp [Outcome.isReturned]
  | some lyr =>
    refine ⟨?_, ?_, ?_, ?_⟩
    · cases hv : env.IsValid (tileOf vars) with
      | false =>
        rw [HandleRequestTile_invalid env vars s lyr hl hv]
        simp [Outcome.isReturned]
      | true =>
        rw [HandleRequestTile_valid env vars s lyr hl hv]
        simp [Outcome.isReturned]
    · cases he : (env.AddDetails lyr s.globalLayers).2.2 with
      | none =>
        rw [HandleRequestLayer_detailed env vars s lyr hl he]
        simp [Outcome.isReturned, he]
      | some e =>
        rw [HandleRequestLayer_failed env vars s lyr e hl he]
        simp [Outcome.isReturned, he]
    · intro code st h
      cases hv : env.IsValid (tileOf vars) with
      | false =>
        rw [HandleRequestTile_invalid env vars s lyr hl hv] at h
        injection h with h1 h2
        subst h1 h2
        simp [State.emit]
      | true =>
        rw [HandleRequestTile_valid env vars s lyr hl hv] at h
        cases h
    · intro code st h
      cases he : (env.AddDetails lyr s.globalLayers).2.2 with
      | none =>
        rw [HandleRequestLayer_detailed env vars s lyr hl he] at h
        cases h
      | some e =>
        rw [HandleRequestLayer_failed env vars s lyr e hl he] at h
        injection h with h1 h2
        subst h1 h2
        exact ⟨rfl, lyr, e, rfl, he, by simp [State.emit, State.setLayers]⟩

end Policy

/-! ## Tile coordinates -/

/-- C7. Tile coordinate validation: `IsValid` is true if and only if
`zoom >= 0`, `0 <= x < 2^zoom`, `0 <= y < 2^zoom` and the extension is a
recognized one; the tile `(0, 0, 0, "pbf")` is valid and `(0, 1, 0, "pbf")` is
rejected. -/
theorem Tile_IsValid_iff :
    (∀ t : Tile, t.IsValid = true ↔
        0 ≤ t.Zoom ∧ (0 ≤ t.X ∧ t.X < 2 ^ t.Zoom.toNat) ∧
          (0 ≤ t.Y ∧ t.Y < 2 ^ t.Zoom.toNat) ∧ t.Ext ∈ recognizedExts) ∧
      Tile.IsValid { Zoom := 0, X := 0, Y := 0, Ext := "pbf" } = true ∧
      Tile.IsValid { Zoom := 0, X := 1, Y := 0, Ext := "pbf" } = false := by
  refine ⟨?_, by decide, by decide⟩
  intro t
  unfold Tile.IsValid
  by_cases hz : t.Zoom < 0
  · simp [hz]
  · by_cases hx : t.X < 0 ∨ t.X ≥ 2 ^ t.Zoom.toNat
    · have : ¬ (0 ≤ t.X ∧ t.X < 2 ^ t.Zoom.toNat) := by
        rintro ⟨h1, h2⟩
        rcases hx with h | h <;> omega
      simp [hz, hx, this]
    · by_cases hy : t.Y < 0 ∨ t.Y ≥ 2 ^ t.Zoom.toNat
      · have : ¬ (0 ≤ t.Y ∧ t.Y < 2 ^ t.Zoom.toNat) := by
          rintro ⟨h1, h2⟩
          rcases hy with h | h <;> omega
        simp [hz, hx, hy, this]
      · have hx2 : 0 ≤ t.X ∧ t.X < 2 ^ t.Zoom.toNat := by
          constructor <;> by_contra h <;> exact hx (by omega)
        have hy2 : 0 ≤ t.Y ∧ t.Y < 2 ^ t.Zoom.toNat := by
          constructor <;> by_contra h <;> exact hy (by omega)
        have hz2 : 0 ≤ t.Zoom := by omega
        simp [hz, hx, hy, hx2, hy2, hz2]

/-! ## HandleRequestIndex -/

section IndexHandler

variable {Layer : Type}

/-- C9. Refresh then serialize in `HandleRequestIndex`: the events the handler
adds are, in this order, its log line, one `GetLayerTableList` call, the header
`Content-Type: application/json` and one body write, so the refresh happens
exactly once and before any byte is written; the handler returns;
`globalLayers` afterwards is the refreshed catalog, and the bytes written are
the JSON encoding of that refreshed catalog, which on a fresh writer is the
whole body. -/
theorem HandleRequestIndex_refresh_then_serialize (env : Env Layer) (s : State Layer) :
    (HandleRequestIndex env s).newEvents s =
        [.logPrint "HandleRequestIndex", .getLayerTableList,
          .headerAdd "Content-Type" "application/json",
          .write (env.encodeLayers (env.GetLayerTableList s.globalLayers))] ∧
      ((HandleRequestIndex env s).newEvents s).countP Event.isGetLayerTableList = 1 ∧
      (HandleRequestIndex env s).isReturned = true ∧
      (HandleRequestIndex env s).state.globalLayers = env.GetLayerTableList s.globalLayers ∧
      (HandleRequestIndex env s).state.w.header =
        s.w.header ++ [("Content-Type", "application/json")] ∧
      (HandleRequestIndex env s).state.w.body =
        s.w.body ++ env.encodeLayers (env.GetLayerTableList s.globalLayers) ∧
      (s.w = ResponseWriter.fresh →
        (HandleRequestIndex env s).state.w.headerGet "Content-Type" =
            some "application/json" ∧
          (HandleRequestIndex env s).state.w.body =
            env.encodeLayers (env.GetLayerTableList s.globalLayers) ∧
          (HandleRequestIndex env s).state.w.finalStatus = 200) := by
  have hev : (HandleRequestIndex env s).newEvents s =
      [.logPrint "HandleRequestIndex", .getLayerTableList,
        .headerAdd "Content-Type" "application/json",
        .write (env.encodeLayers (env.GetLayerTableList s.globalLayers))] :=
    newEvents_append _ s _ (by
      simp [HandleRequestIndex, Outcome.state, State.emit, State.setLayers, State.write, State.headerAdd])
  refine ⟨hev, ?_, ?_, ?_, ?_, ?_, ?_⟩
  · rw [hev]
    simp [List.countP_cons, Event.isGetLayerTableList]
  · simp [HandleRequestIndex, Outcome.isReturned]
  · simp [HandleRequestIndex, Outcome.state, State.emit, State.setLayers, State.write, State.headerAdd]
  · simp [HandleRequestIndex, Outcome.state, State.emit, State.setLayers, State.write, State.headerAdd,
      ResponseWriter.Write, ResponseWriter.HeaderAdd]
  · simp [HandleRequestIndex, Outcome.state, State.emit, State.setLayers, State.write, State.headerAdd,
      ResponseWriter.Write, ResponseWriter.HeaderAdd]
  · intro hfresh
    simp [HandleRequestIndex, Outcome.state, State.emit, State.setLayers, State.write, State.headerAdd,
      ResponseWriter.Write, ResponseWriter.HeaderAdd, ResponseWriter.headerGet,
      ResponseWriter.finalStatus, hfresh, ResponseWriter.fresh, List.lookup]

end IndexHandler

/-! ## HandleRequestLayer -/

section LayerHandler

variable {Layer : Type}

/-- C6 (as stated, refuted). For `GET /rivers.json` over a catalog without
`rivers` the handler writes no status line, header or body, and the client
receives status 200, not 404. -/
theorem HandleRequestLayer_absent_layer_not_404 :
    exState.globalLayers.lookup exVarsRivers.name = none ∧
      (HandleRequestLayer exEnv exVarsRivers exState).state.w = ResponseWriter.fresh ∧
      (HandleRequestLayer exEnv exVarsRivers exState).state.w.finalStatus = 200 ∧
      (HandleRequestLayer exEnv exVarsRivers exState).state.w.finalStatus ≠ 404 := by
  decide

/-- C6 (amended). `HandleRequestLayer`: if the name is a key of `globalLayers`
and `AddDetails` succeeds, the handler returns having added the header
`Content-Type: application/json` and written the JSON encoding of the
descriptor as `AddDetails` left it (on a fresh writer: the only header, the
whole body, status 200); if the name is absent from `globalLayers`, the handler
returns leaving the response writer untouched, with no status line, header or
body written. -/
theorem HandleRequestLayer_response (env : Env Layer) (vars : Vars) (s : State Layer) :
    (∀ lyr, s.globalLayers.lookup vars.name = some lyr →
        (env.AddDetails lyr s.globalLayers).2.2 = none →
        (HandleRequestLayer env vars s).isReturned = true ∧
          (HandleRequestLayer env vars s).state.w.header =
            s.w.header ++ [("Content-Type", "application/json")] ∧
          (HandleRequestLayer env vars s).state.w.body =
            s.w.body ++ env.encodeLayer (env.AddDetails lyr s.globalLayers).1 ∧
          (s.w = ResponseWriter.fresh →
            (HandleRequestLayer env vars s).state.w.headerGet "Content-Type" =
                some "application/json" ∧
              (HandleRequestLayer env vars s).state.w.body =
                env.encodeLayer (env.AddDetails lyr s.globalLayers).1 ∧
              (HandleRequestLayer env vars s).state.w.finalStatus = 200)) ∧
      (s.globalLayers.lookup vars.name = none →
        (HandleRequestLayer env vars s).isReturned = true ∧
          (HandleRequestLayer env vars s).state.w = s.w ∧
          ∀ e ∈ (HandleRequestLayer env vars s).newEvents s, e.touchesDb = false) := by
  constructor
  · intro lyr hl hok
    rw [HandleRequestLayer_detailed env vars s lyr hl hok]
    refine ⟨rfl, ?_, ?_, ?_⟩
    · simp [Outcome.state, State.emit, State.setLayers, State.write, State.headerAdd,
        ResponseWriter.Write, ResponseWriter.HeaderAdd]
    · simp [Outcome.state, State.emit, State.setLayers, State.write, State.headerAdd,
        ResponseWriter.Write, ResponseWriter.HeaderAdd]
    · intro hfresh
      simp [Outcome.state, State.emit, State.setLayers, State.write, State.headerAdd,
        ResponseWriter.Write, ResponseWriter.HeaderAdd, ResponseWriter.headerGet,
        ResponseWriter.finalStatus, hfresh, ResponseWriter.fresh, List.lookup]
  · intro hmiss
    rw [HandleRequestLayer_absent env vars s hmiss]
    refine ⟨rfl, rfl, ?_⟩
    intro e he
    rw [newEvents_append _ s [.logPrint ("HandleRequestLayer: " ++ vars.name)]
      (by simp [Outcome.state, State.emit])] at he
    simp only [List.mem_singleton] at he
    subst he
    rfl

/-- Witness of C6 (amended) at `GET /roads.json`: the body is the encoding of
the detailed descriptor, which differs from that of the listing level one. -/
theorem HandleRequestLayer_response_witness :
    (HandleRequestLayer exEnv exVarsRoads exState).state.w.body =
        exEncodeLayer { exRoads with attributeColumns := some [("gid", "int4")] } ∧
      (HandleRequestLayer exEnv exVarsRoads exState).state.w.body ≠ exEncodeLayer exRoads ∧
      (HandleRequestLayer exEnv exVarsRoads exState).state.w.headerGet "Content-Type" =
        some "application/json" :=
  ⟨(((HandleRequestLayer_response exEnv exVarsRoads exState).1 exRoads
      (by decide) (by decide)).2.2.2 (by decide)).2.1,
    by decide,
    (((HandleRequestLayer_response exEnv exVarsRoads exState).1 exRoads
      (by decide) (by decide)).2.2.2 (by decide)).1⟩

/-- C10. Detail caching, with `AddDetails` as the spec describes it (details
cached on the descriptor): after `HandleRequestLayer` has successfully run
`AddDetails` for a name present in `globalLayers`, the handler has returned,
the descriptor `AddDetails` left has its details populated, and
`globalLayers[name]` is that detailed descriptor.  A second
`HandleRequestLayer` for the same name with no refresh in between, whatever
the detail query would answer by then, looks up the detailed descriptor,
returns, writes the encoding of that same detailed descriptor and leaves the
catalog as it is. -/
theorem HandleRequestLayer_details_cached (base : Env LayerDescriptor)
    (query query2 : LayerDescriptor → Except Err (List (String × String)))
    (vars : Vars) (s : State LayerDescriptor) (lyr : LayerDescriptor)
    (hlyr : s.globalLayers.lookup vars.name = some lyr)
    (hok : (LayerDescriptor.AddDetails query lyr s.globalLayers).2.2 = none) :
    (HandleRequestLayer (cachingEnv base query) vars s).isReturned = true ∧
      (LayerDescriptor.AddDetails query lyr s.globalLayers).1.attributeColumns.isSome = true ∧
      (HandleRequestLayer (cachingEnv base query) vars s).state.globalLayers.lookup vars.name =
        some (LayerDescriptor.AddDetails query lyr s.globalLayers).1 ∧
      (HandleRequestLayer (cachingEnv base query2) vars
          (HandleRequestLayer (cachingEnv base query) vars s).state).isReturned = true ∧
      (HandleRequestLayer (cachingEnv base query2) vars
          (HandleRequestLayer (cachingEnv base query) vars s).state).newEvents
            (HandleRequestLayer (cachingEnv base query) vars s).state =
        [.logPrint ("HandleRequestLayer: " ++ vars.name), .addDetails vars.name,
          .headerAdd "Content-Type" "application/json",
          .write (base.encodeLayer (LayerDescriptor.AddDetails query lyr s.globalLayers).1)] ∧
      (HandleRequestLayer (cachingEnv base query2) vars
          (HandleRequestLayer (cachingEnv base query) vars s).state).state.globalLayers =
        (HandleRequestLayer (cachingEnv base query) vars s).state.globalLayers := by
  obtain ⟨hdet, hcat⟩ := AddDetails_ok_cached query lyr s.globalLayers vars.name hlyr hok
  have hfirst := HandleRequestLayer_detailed (cachingEnv base query) vars s lyr hlyr hok
  have hcat1 : (HandleRequestLayer (cachingEnv base query) vars s).state.globalLayers.lookup
      vars.name = some (LayerDescriptor.AddDetails query lyr s.globalLayers).1 := by
    rw [hfirst]
    exact hcat
  have hagain : ∀ layers, LayerDescriptor.AddDetails query2
      (LayerDescriptor.AddDetails query lyr s.globalLayers).1 layers =
        ((LayerDescriptor.AddDetails query lyr s.globalLayers).1, layers, none) :=
    fun layers => AddDetails_of_detailed query2 _ layers hdet
  have hsecond := HandleRequestLayer_detailed (cachingEnv base query2) vars
    (HandleRequestLayer (cachingEnv base query) vars s).state
    (LayerDescriptor.AddDetails query lyr s.globalLayers).1 hcat1
    (by show (LayerDescriptor.AddDetails query2 _ _).2.2 = none; rw [hagain])
  have hrun : (cachingEnv base query2).AddDetails
      (LayerDescriptor.AddDetails query lyr s.globalLayers).1
      (HandleRequestLayer (cachingEnv base query) vars s).state.globalLayers =
        ((LayerDescriptor.AddDetails query lyr s.globalLayers).1,
          (HandleRequestLayer (cachingEnv base query) vars s).state.globalLayers, none) :=
    hagain _
  rw [hrun] at hsecond
  refine ⟨?_, hdet, hcat1, ?_, ?_, ?_⟩
  · rw [hfirst]
    rfl
  · rw [hsecond]
    rfl
  · apply newEvents_append
    rw [hsecond]
    simp [Outcome.state, State.emit, State.setLayers, State.write, State.headerAdd, cachingEnv]
  · rw [hsecond]
    rfl

/-- Witness of C10 at two requests `GET /roads.json` in a row, the detail query
failing by the time of the second: the catalog holds the detailed `roads` after
the first, and the second writes the same detailed encoding. -/
theorem HandleRequestLayer_details_cached_witness :
    (HandleRequestLayer (cachingEnv exEnv exDetailQuery) exVarsRoads exState).state.globalLayers
        = [("roads", { exRoads with attributeColumns := some [("gid", "int4")] })] ∧
      (HandleRequestLayer (cachingEnv exEnv exDetailQueryFails) exVarsRoads
          (HandleRequestLayer (cachingEnv exEnv exDetailQuery) exVarsRoads exState).state).newEvents
            (HandleRequestLayer (cachingEnv exEnv exDetailQuery) exVarsRoads exState).state =
        [.logPrint ("HandleRequestLayer: " ++ exVarsRoads.name), .addDetails exVarsRoads.name,
          .headerAdd "Content-Type" "application/json",
          .write (exEnv.encodeLayer
            (LayerDescriptor.AddDetails exDetailQuery exRoads exState.globalLayers).1)] :=
  ⟨by decide,
    (HandleRequestLayer_details_cached exEnv exDetailQuery exDetailQueryFails exVarsRoads
      exState exRoads (by decide) (by decide)).2.2.2.2.1⟩

end LayerHandler

end PgTileserv
